import Mathlib

/-!
Verification of the feedback-driven code-improvement agent.

The definitions below are a shallow embedding of the JavaScript sources:
* `CircuitBreakerManager.*` embeds the breaker in `circuit-breaker` (src/unnamed/part_003);
* `agentProcess`, `qualityGateOf` embed the agent engine (src/unnamed/part_001);
* `streamTrace`, `sendToClient`, `handleProcess` embed the HTTP layer (src/server/app.js).

JavaScript `number` values used as token counts and timestamps are embedded
as `Int` (they stay integral in the source).  `Map` is embedded as an
association list in insertion order.  A JS `null`-able argument becomes an
`Option`.
-/

/-- Status tag recorded on a breaker event (the `status` argument of
`recordEvent` in part_003: 'ALLOWED', 'CIRCUIT_OPEN', 'DAILY_TOKEN_LIMIT',
'CONCURRENT_LIMIT', 'TASK_TOKEN_LIMIT', 'MAX_RETRIES_EXCEEDED'). -/
inductive EvStatus where
  | allowed
  | circuitOpen
  | dailyLimit
  | concurrencyLimit
  | taskLimit
  | maxRetriesExceeded
deriving DecidableEq, Repr

/-- One entry of `usage.tasks` (`taskId -> { tokens, retries, status, createdAt }`). -/
structure TaskEntry where
  tokens : Int
  retries : Nat
  status : String
  createdAt : Int
deriving DecidableEq, Repr

/-- The `circuitState` record.  `lastOpenTime` and `nextAllowedTime` start as
`null` in the source, hence `Option Int`. -/
structure CircuitState where
  isOpen : Bool
  lastOpenTime : Option Int
  halfOpenTestCount : Nat
  nextAllowedTime : Option Int
deriving DecidableEq, Repr

/-- One event of the `events` log.  The random `id` and the usage snapshot
fields of the source event object are write-only data and are omitted. -/
structure BreakerEvent where
  timestamp : Int
  service : String
  action : String
  status : EvStatus
  tokens : Int
  taskId : Option String
deriving DecidableEq, Repr

/-- The configuration thresholds (`DEFAULT_CONFIG` keys). -/
structure BreakerConfig where
  maxDailyTokens : Int
  maxTaskTokens : Int
  maxConcurrentTasks : Int
  maxRetries : Nat
  tokenWindowMs : Int
  halfOpenTestIntervalMs : Int
deriving DecidableEq, Repr

/-- The in-memory state of one `CircuitBreakerManager` instance. -/
structure BreakerState where
  config : BreakerConfig
  dailyTokens : Int
  dailyTokenReset : Int
  concurrentTasks : Int
  tasks : List (String × TaskEntry)
  circuit : CircuitState
  events : List BreakerEvent
deriving DecidableEq, Repr

/-- `DEFAULT_CONFIG` of part_003. -/
def DEFAULT_CONFIG : BreakerConfig :=
  ⟨1000000, 50000, 10, 3, 24 * 60 * 60 * 1000, 10 * 60 * 1000⟩

/-- `this.usage.tasks.get(taskId)` over the association-list embedding. -/
def lookupTask : List (String × TaskEntry) → String → Option TaskEntry
  | [], _ => none
  | (k, v) :: rest, t => if k = t then some v else lookupTask rest t

/-- `Map.set` for a key known to be absent (insertion appends). -/
def addTask (l : List (String × TaskEntry)) (t : String) (v : TaskEntry) :
    List (String × TaskEntry) :=
  l ++ [(t, v)]

/-- In-place mutation of the entry stored under a key. -/
def updTask (l : List (String × TaskEntry)) (t : String) (f : TaskEntry → TaskEntry) :
    List (String × TaskEntry) :=
  l.map (fun p => if p.1 = t then (p.1, f p.2) else p)

/-- `Map.delete`. -/
def eraseTask (l : List (String × TaskEntry)) (t : String) : List (String × TaskEntry) :=
  l.filter (fun p => !(p.1 = t : Bool))

/-- The usage snapshot carried on a check result (`result.currentUsage`;
only the two mutable counters, the config echoes are omitted). -/
structure UsageSnap where
  dailyTokens : Int
  concurrentTasks : Int
deriving DecidableEq, Repr

/-- The value returned by `check`.  The source's Chinese reason message is
abstracted to the status tag of the breaker event recorded alongside it
(`none` when allowed, matching the initial empty reason string). -/
structure CheckResult where
  allowed : Bool
  reason : Option EvStatus
  currentUsage : UsageSnap
deriving DecidableEq, Repr

namespace CircuitBreakerManager

/-- `openCircuit()` of part_003. -/
def openCircuit (s : BreakerState) (now : Int) : BreakerState :=
  if s.circuit.isOpen then s
  else
    { s with circuit :=
        { s.circuit with
            isOpen := true
            lastOpenTime := some now
            nextAllowedTime := some (now + s.config.halfOpenTestIntervalMs) } }

/-- The filter inside `recordEvent`: non-allowed events younger than 60 s. -/
def recentFailureCount (events : List BreakerEvent) (now : Int) : Nat :=
  (events.filter (fun e =>
    !(e.status = EvStatus.allowed : Bool) && decide (now - e.timestamp < 60000))).length

/-- `recordEvent(service, action, status, tokens, taskId)` of part_003:
unshift the event, trim the log to 1000 entries, and on a non-allowed
status trip the circuit when at least 5 non-allowed events fall inside
the rolling 60 s window (the new event included). -/
def recordEvent (s : BreakerState) (now : Int) (service action : String)
    (status : EvStatus) (tokens : Int) (taskId : Option String) : BreakerState :=
  let ev : BreakerEvent := ⟨now, service, action, status, tokens, taskId⟩
  let s1 := { s with events := (ev :: s.events).take 1000 }
  if status = EvStatus.allowed then s1
  else if recentFailureCount s1.events now ≥ 5 then openCircuit s1 now
  else s1

/-- The mutation performed when an open circuit is visited at
`now ≥ nextAllowedTime` ("half-open" transition in `check`). -/
def halfOpenStep (s : BreakerState) : BreakerState :=
  if s.circuit.isOpen then
    { s with circuit := { s.circuit with isOpen := false, halfOpenTestCount := 0 } }
  else s

/-- The single-task token test of `check` (step iv):
`taskId && tasks.has(taskId) && taskUsage.tokens + estimated > MAX_TASK_TOKENS`. -/
def taskLimitHit (s : BreakerState) (est : Int) (taskId : Option String) : Bool :=
  match taskId with
  | none => false
  | some t =>
    match lookupTask s.tasks t with
    | none => false
    | some e => decide (e.tokens + est > s.config.maxTaskTokens)

/-- First half of the pre-reservation block of `check`:
`if (estimatedTokens > 0) this.usage.dailyTokens += estimatedTokens`. -/
def addDailyEstimate (s : BreakerState) (est : Int) : BreakerState :=
  if est > 0 then { s with dailyTokens := s.dailyTokens + est } else s

/-- The pre-reservation block of `check`: add the estimate to the daily
total, then register a new task or accumulate into the existing entry. -/
def reserve (s : BreakerState) (now est : Int) (taskId : Option String) : BreakerState :=
  let s2 := addDailyEstimate s est
  match taskId with
  | none => s2
  | some t =>
    match lookupTask s2.tasks t with
    | none =>
        { s2 with
            concurrentTasks := s2.concurrentTasks + 1
            tasks := addTask s2.tasks t ⟨est, 0, "running", now⟩ }
    | some _ =>
        { s2 with tasks := updTask s2.tasks t (fun e => { e with tokens := e.tokens + est }) }

/-- `check(service, action, estimatedTokens, taskId)` of part_003.  `now`
(`Date.now()`) is passed explicitly.  A `null` `nextAllowedTime` compared
with `<` coerces to 0 in JS, hence `getD 0`.  On a denial the usage
snapshot keeps the pre-call counters (the source writes it before the
tests and only overwrites it on the allow path). -/
def check (s0 : BreakerState) (now : Int) (service action : String)
    (est : Int) (taskId : Option String) : CheckResult × BreakerState :=
  let preUsage : UsageSnap := ⟨s0.dailyTokens, s0.concurrentTasks⟩
  if s0.circuit.isOpen ∧ now < (s0.circuit.nextAllowedTime.getD 0) then
    (⟨false, some .circuitOpen, preUsage⟩,
      recordEvent s0 now service action .circuitOpen est taskId)
  else
    let s1 := halfOpenStep s0
    if s1.dailyTokens + est > s1.config.maxDailyTokens then
      (⟨false, some .dailyLimit, preUsage⟩,
        recordEvent s1 now service action .dailyLimit est taskId)
    else if s1.concurrentTasks ≥ s1.config.maxConcurrentTasks then
      (⟨false, some .concurrencyLimit, preUsage⟩,
        recordEvent s1 now service action .concurrencyLimit est taskId)
    else if taskLimitHit s1 est taskId then
      (⟨false, some .taskLimit, preUsage⟩,
        recordEvent s1 now service action .taskLimit est taskId)
    else
      let s3 := reserve s1 now est taskId
      (⟨true, none, ⟨s3.dailyTokens, s3.concurrentTasks⟩⟩,
        recordEvent s3 now service action .allowed est taskId)

/-- `release(taskId, actualTokens)` of part_003. -/
def release (s : BreakerState) (taskId : Option String) (actualTokens : Int) : BreakerState :=
  match taskId with
  | none => s
  | some t =>
    match lookupTask s.tasks t with
    | none => s
    | some task =>
      let tokenDiff := actualTokens - task.tokens
      { s with
          dailyTokens := max 0 (s.dailyTokens + tokenDiff)
          tasks := eraseTask s.tasks t
          concurrentTasks := max 0 (s.concurrentTasks - 1) }

/-- `incrementRetry(taskId)` of part_003. -/
def incrementRetry (s : BreakerState) (now : Int) (taskId : Option String) :
    Bool × BreakerState :=
  match taskId with
  | none => (true, s)
  | some t =>
    match lookupTask s.tasks t with
    | none => (true, s)
    | some task =>
      let s1 := { s with tasks := updTask s.tasks t (fun e => { e with retries := e.retries + 1 }) }
      if task.retries + 1 ≥ s.config.maxRetries then
        (false, recordEvent s1 now "agent" "retry" .maxRetriesExceeded 0 (some t))
      else (true, s1)

/-- The per-entry body of the cleanup loop: delete a task entry older than
one hour and decrement the concurrency counter with a clamp. -/
def expireTask (now : Int) (acc : BreakerState) (kv : String × TaskEntry) : BreakerState :=
  if now - kv.2.createdAt > 60 * 60 * 1000 then
    { acc with
        tasks := eraseTask acc.tasks kv.1
        concurrentTasks := max 0 (acc.concurrentTasks - 1) }
  else acc

/-- One firing of the interval timer installed by `startCleanupTimer`:
reset the daily bucket when the window closed, then expire task entries
older than one hour. -/
def cleanupTick (s : BreakerState) (now : Int) : BreakerState :=
  let s1 :=
    if now ≥ s.dailyTokenReset then
      { s with dailyTokens := 0, dailyTokenReset := now + s.config.tokenWindowMs }
    else s
  s1.tasks.foldl (expireTask now) s1

end CircuitBreakerManager

/-- The state a fresh `CircuitBreakerManager` starts from (constructor). -/
def initBreaker (cfg : BreakerConfig) (now : Int) : BreakerState :=
  { config := cfg
    dailyTokens := 0
    dailyTokenReset := now + cfg.tokenWindowMs
    concurrentTasks := 0
    tasks := []
    circuit := ⟨false, none, 0, none⟩
    events := [] }

/-- Modelled from the spec: the ordered admission test of `Check` as §4.3
words it — (i) circuit open and now before next-allowed-time denies
`circuit-open`, (ii) daily-tokens-used + estimated over `maxDailyTokens`
denies `daily-limit`, (iii) concurrent-tasks at the cap denies
`concurrency-limit`, (iv) an existing task whose tokens + estimated
exceed `maxTaskTokens` denies `task-limit`, otherwise allowed.  Stated
independently of `CircuitBreakerManager.check` so the refinement theorem
compares the two. -/
def specCheckReason (s : BreakerState) (now est : Int) (taskId : Option String) :
    Option EvStatus :=
  if s.circuit.isOpen ∧ now < (s.circuit.nextAllowedTime.getD 0) then some .circuitOpen
  else if s.dailyTokens + est > s.config.maxDailyTokens then some .dailyLimit
  else if s.concurrentTasks ≥ s.config.maxConcurrentTasks then some .concurrencyLimit
  else
    match taskId with
    | none => none
    | some t =>
      match lookupTask s.tasks t with
      | none => none
      | some e => if e.tokens + est > s.config.maxTaskTokens then some .taskLimit else none

/- ===================== Agent engine (src/unnamed/part_001) ===================== -/

/-- The outcome flags the five stage services report back to `Agent.process`;
each flag is the field of the corresponding result object that `process`
branches on (`analysisResult.success`, `analysisResult.canAutoImprove`,
`solutionResult.success`, `modification.success`, `testResult.passed`,
`testResult.canRetry`, `publishResult.success`). -/
structure StageOutcomes where
  analyzeSuccess : Bool
  canAutoImprove : Bool
  solutionSuccess : Bool
  modifySuccess : Bool
  testPassed : Bool
  testCanRetry : Bool
  publishSuccess : Bool
deriving DecidableEq, Repr

/-- The `stage` tag of the object `Agent.process` returns. -/
inductive ProcStage where
  | analysis
  | solution
  | modification
  | test
  | publish
  | completed
deriving DecidableEq, Repr

/-- The fields of the `Agent.process` return value the claims are about. -/
structure ProcResult where
  success : Bool
  stage : ProcStage
  needsHuman : Bool
  canRetry : Bool
deriving DecidableEq, Repr

/-- `Agent.process` of part_001 (lines 653–713), abstracted over the stage
outcomes.  The second component counts the invocations of
`solutionGenerator.generate` (the Planner) performed by this call: the
source calls it exactly once, on the straight-line path after a
successful, auto-improvable analysis — there is no retry loop inside
`process`, a retryable test failure merely returns `canRetry: true`. -/
def agentProcess (env : StageOutcomes) : ProcResult × Nat :=
  if !env.analyzeSuccess then
    (⟨false, .analysis, false, false⟩, 0)
  else if !env.canAutoImprove then
    (⟨true, .analysis, true, false⟩, 0)
  else if !env.solutionSuccess then
    (⟨false, .solution, false, false⟩, 1)
  else if !env.modifySuccess then
    (⟨false, .modification, false, false⟩, 1)
  else if !env.testPassed then
    if env.testCanRetry then (⟨false, .test, false, true⟩, 1)
    else (⟨false, .test, true, false⟩, 1)
  else if env.publishSuccess then
    (⟨true, .completed, false, false⟩, 1)
  else
    (⟨false, .publish, false, false⟩, 1)

/-- The `qualityGate` record `TestService.runTests` computes (part_001,
lines 552–560).  `llmQualityScore` follows the source's
`evaluation?.score ? evaluation.score >= 7 : null`: a missing evaluation
or a falsy (zero) score yields `null`.  The pass rate is the JS division
`testsPassed / testsRun` compared against 1; over `ℚ` the comparison
agrees with JS for every case including `testsRun = 0` (JS `NaN`/
`Infinity` and `ℚ`'s `x / 0 = 0` both differ from 1). -/
structure QualityGate where
  testPassRate : Bool
  coverage : Bool
  llmQualityScore : Option Bool
deriving DecidableEq, Repr

def qualityGateOf (testsRun testsPassed : Nat) (evalScore : Option Int) : QualityGate :=
  let passRate : ℚ := (testsPassed : ℚ) / (testsRun : ℚ)
  { testPassRate := passRate == 1
    coverage := decide (testsRun ≥ 3)
    llmQualityScore :=
      match evalScore with
      | some sc => if sc = 0 then none else some (decide (sc ≥ 7))
      | none => none }

/-- `const passed = qualityGate.testPassRate;` — the verdict `runTests`
actually reports. -/
def testerPassed (testsRun testsPassed : Nat) (evalScore : Option Int) : Bool :=
  (qualityGateOf testsRun testsPassed evalScore).testPassRate

/-- Modelled from the spec: the §4.6 quality gate as the claim words it —
`testsPassed == testsRun` AND `testsRun ≥ minCases` AND, when an LLM
assessment is present, score at least the threshold. -/
def specQualityGate (testsRun testsPassed : Nat) (evalScore : Option Int)
    (minCases : Nat) (threshold : Int) : Bool :=
  (testsPassed == testsRun) && decide (testsRun ≥ minCases) &&
    (match evalScore with
     | some sc => decide (sc ≥ threshold)
     | none => true)

/- ===================== HTTP layer (src/server/app.js) ===================== -/

/-- The typed events the stream handler writes (`event:` names of the SSE
protocol).  `complete` carries the `status` field of its JSON payload. -/
inductive StreamEvent where
  | connected
  | stage (tag : String)
  | intent
  | codeChunk
  | suggestion
  | testResult
  | pr
  | complete (status : String)
  | error
  | done
deriving DecidableEq, Repr

/-- How the `agent.process` promise settles, as far as the stream handler's
`.then`/`.catch` branches can observe: `needsHuman` on the handoff exits,
`success` (with flags telling which optional sections of the result are
present) on a completed run, `failure` on a `success: false` result, and
`threw` on a rejected promise. -/
inductive AgentOutcome where
  | needsHuman
  | success (hasModification hasTest hasPublish : Bool)
  | failure
  | threw
deriving DecidableEq, Repr

/-- The events the `.then`/`.catch` continuation of `agent.process` emits
(app.js lines 737–792). -/
def branchEvents : AgentOutcome → List StreamEvent
  | .needsHuman => [.stage "needs_human", .complete "needs_human"]
  | .success m t p =>
      [.intent] ++ (if m then [.suggestion] else []) ++
        (if t then [.testResult] else []) ++ (if p then [.pr] else []) ++
        [.complete "completed"]
  | .failure => [.error, .complete "failed"]
  | .threw => [.error, .complete "error"]

/-- The event sequence the `POST /api/agent/process/stream` handler
delivers for a valid submission when the agent is loaded.  The handler
writes `connected` directly, sends `stage(analyzing)` and
`stage(processing)`, schedules the `.then`/`.catch` continuation of
`agent.process`, and installs an independent fixed 1-second timer
(app.js lines 831–836) that writes `done`, ends the response and removes
the client — it does NOT wait for `agent.process`.  On the
single-threaded event loop both the continuation (whose body contains no
await between its `sendToClient` calls) and the timer callback run as
atomic blocks, so the race has exactly two schedules, selected by
`settledWithinTimer`: when the promise settles inside the 1 s window the
continuation's events are delivered before `done`; when the timer fires
first, `removeClient` has already deleted the subscriber, every later
`sendToClient` is a silent no-op, and the continuation's events —
including the terminal `complete`/`error` — are dropped. -/
def streamTrace (o : AgentOutcome) (settledWithinTimer : Bool) : List StreamEvent :=
  if settledWithinTimer then
    [.connected, .stage "analyzing", .stage "processing"] ++ branchEvents o ++ [.done]
  else
    [.connected, .stage "analyzing", .stage "processing", .done]

/-- Is the event one of the terminal pair `complete`/`error`? -/
def isTerminalEvent : StreamEvent → Bool
  | .complete _ => true
  | .error => true
  | _ => false

/-- Is the event a `complete`? -/
def isCompleteEvent : StreamEvent → Bool
  | .complete _ => true
  | _ => false

/-- The registered SSE connection (`sseClients` map values): only the
liveness bit `res.writableEnded` matters to `sendToClient`. -/
structure SseClient where
  writableEnded : Bool
deriving DecidableEq, Repr

/-- `sendToClient(clientId, event, data)` of app.js (lines 26–32), modelled
on the list of events actually written so far: the write happens only when
the client is still registered and its response is not ended; otherwise
the call is a silent no-op. -/
def sendToClient (clients : List (String × SseClient)) (clientId : String)
    (sent : List StreamEvent) (ev : StreamEvent) : List StreamEvent :=
  match clients.lookup clientId with
  | some c => if c.writableEnded then sent else sent ++ [ev]
  | none => sent

/-- JS `String.prototype.trim` on the character list (ASCII whitespace). -/
def jsTrim (s : String) : String :=
  ⟨((s.data.dropWhile Char.isWhitespace).reverse.dropWhile Char.isWhitespace).reverse⟩

/-- `content.substring(0, 280)`. -/
def clamp280 (c : String) : String :=
  ⟨c.data.take 280⟩

/-- The HTTP status outcome of the two submission handlers. -/
inductive IngressResponse where
  | badRequest
  | ok (storedContent : String)
deriving DecidableEq, Repr

/-- The ingress validation both `POST /api/agent/process` (app.js line 545)
and `POST /api/agent/process/stream` (line 688) perform:
`if (!content?.trim()) return 400`, else build the feedback with
`content.substring(0, 280)` and unshift it into the store
(`database.createFeedback` + `feedbackStore.unshift`).  `none` models a
missing `content` field (the optional chain yields `undefined`). -/
def handleProcess (content : Option String) (store : List String) :
    IngressResponse × List String :=
  match content with
  | none => (.badRequest, store)
  | some c =>
    if jsTrim c = "" then (.badRequest, store)
    else (.ok (clamp280 c), clamp280 c :: store)

/- ===================== Check/Release runs and concrete states ===================== -/

/-- One (Check, Release) pair on the same task id: reserve `r` estimated
tokens, then reconcile with `a` actual tokens (the discipline `callLLM`
follows for a task-bound call). -/
def pairStep (now : Int) (tid : String) (s : BreakerState) (r a : Int) : BreakerState :=
  CircuitBreakerManager.release
    (CircuitBreakerManager.check s now "llm" "llm_call" r (some tid)).2 (some tid) a

/-- Run a list of (reserved, actual) pairs sequentially. -/
def runPairs (now : Int) (tid : String) : BreakerState → List (Int × Int) → BreakerState
  | s, [] => s
  | s, (r, a) :: rest => runPairs now tid (pairStep now tid s r a) rest

/-- Every `check` of the run is allowed. -/
def pairsAllowed (now : Int) (tid : String) : BreakerState → List (Int × Int) → Bool
  | _, [] => true
  | s, (r, a) :: rest =>
      (CircuitBreakerManager.check s now "llm" "llm_call" r (some tid)).1.allowed &&
        pairsAllowed now tid (pairStep now tid s r a) rest

/-- A breaker state with the circuit open until t = 100 and the daily
budget exhausted (config: 1000 daily / 500 task / 10 concurrent). -/
def stateOpenExhausted : BreakerState :=
  { config := ⟨1000, 500, 10, 3, 86400000, 600000⟩
    dailyTokens := 1000
    dailyTokenReset := 86400000
    concurrentTasks := 0
    tasks := []
    circuit := { isOpen := true, lastOpenTime := some 0, halfOpenTestCount := 0,
                 nextAllowedTime := some 100 }
    events := [] }

/-- A breaker state holding one in-flight task that has already been
retried twice, under the default thresholds (`maxRetries = 3`). -/
def stateOneTaskTwoRetries : BreakerState :=
  { config := DEFAULT_CONFIG
    dailyTokens := 0
    dailyTokenReset := 86400000
    concurrentTasks := 1
    tasks := [("fb1", ⟨100, 2, "running", 0⟩)]
    circuit := ⟨false, none, 0, none⟩
    events := [] }

/-- The stage outcomes of spec scenario S3: every service succeeds but the
Tester reports `passed = false` with `canRetry = true`. -/
def envTesterFails : StageOutcomes :=
  ⟨true, true, true, true, false, true, true⟩

/-- The breaker-state invariants of the spec's data model: daily usage is
non-negative and the concurrency counter never exceeds the cap. -/
def BreakerInv (s : BreakerState) : Prop :=
  0 ≤ s.dailyTokens ∧ s.concurrentTasks ≤ s.config.maxConcurrentTasks

/-- A closed-circuit state whose event log already holds four fresh
non-allowed events (one more trips the breaker). -/
def stateFourFailures : BreakerState :=
  { config := DEFAULT_CONFIG
    dailyTokens := 0
    dailyTokenReset := 86400000
    concurrentTasks := 0
    tasks := []
    circuit := ⟨false, none, 0, none⟩
    events := List.replicate 4 ⟨0, "llm", "llm_call", EvStatus.dailyLimit, 0, none⟩ }

/-- An open circuit due to recover at t = 100, with the whole daily budget
still available. -/
def stateOpenRecoverable : BreakerState :=
  { config := ⟨1000, 500, 10, 3, 86400000, 600000⟩
    dailyTokens := 0
    dailyTokenReset := 86400000
    concurrentTasks := 0
    tasks := []
    circuit := { isOpen := true, lastOpenTime := some 0, halfOpenTestCount := 0,
                 nextAllowedTime := some 100 }
    events := [] }

/- ===================== Helper lemmas ===================== -/

section Helpers

open CircuitBreakerManager

@[simp] lemma halfOpenStep_dailyTokens (s : BreakerState) :
    (halfOpenStep s).dailyTokens = s.dailyTokens := by
  unfold halfOpenStep; split <;> rfl

@[simp] lemma halfOpenStep_concurrentTasks (s : BreakerState) :
    (halfOpenStep s).concurrentTasks = s.concurrentTasks := by
  unfold halfOpenStep; split <;> rfl

@[simp] lemma halfOpenStep_tasks (s : BreakerState) :
    (halfOpenStep s).tasks = s.tasks := by
  unfold halfOpenStep; split <;> rfl

@[simp] lemma halfOpenStep_config (s : BreakerState) :
    (halfOpenStep s).config = s.config := by
  unfold halfOpenStep; split <;> rfl

@[simp] lemma halfOpenStep_dailyTokenReset (s : BreakerState) :
    (halfOpenStep s).dailyTokenReset = s.dailyTokenReset := by
  unfold halfOpenStep; split <;> rfl

@[simp] lemma halfOpenStep_isOpen (s : BreakerState) :
    (halfOpenStep s).circuit.isOpen = false := by
  unfold halfOpenStep
  split
  · rfl
  · rename_i h; simpa using h

@[simp] lemma openCircuit_dailyTokens (s : BreakerState) (now : Int) :
    (openCircuit s now).dailyTokens = s.dailyTokens := by
  unfold openCircuit; split <;> rfl

@[simp] lemma openCircuit_concurrentTasks (s : BreakerState) (now : Int) :
    (openCircuit s now).concurrentTasks = s.concurrentTasks := by
  unfold openCircuit; split <;> rfl

@[simp] lemma openCircuit_tasks (s : BreakerState) (now : Int) :
    (openCircuit s now).tasks = s.tasks := by
  unfold openCircuit; split <;> rfl

@[simp] lemma openCircuit_config (s : BreakerState) (now : Int) :
    (openCircuit s now).config = s.config := by
  unfold openCircuit; split <;> rfl

@[simp] lemma openCircuit_dailyTokenReset (s : BreakerState) (now : Int) :
    (openCircuit s now).dailyTokenReset = s.dailyTokenReset := by
  unfold openCircuit; split <;> rfl

@[simp] lemma openCircuit_events (s : BreakerState) (now : Int) :
    (openCircuit s now).events = s.events := by
  unfold openCircuit; split <;> rfl

@[simp] lemma openCircuit_isOpen (s : BreakerState) (now : Int) :
    (openCircuit s now).circuit.isOpen = true := by
  unfold openCircuit
  split
  · assumption
  · rfl

@[simp] lemma recordEvent_dailyTokens (s : BreakerState) (now : Int) (svc act : String)
    (st : EvStatus) (tok : Int) (tid : Option String) :
    (recordEvent s now svc act st tok tid).dailyTokens = s.dailyTokens := by
  unfold recordEvent; dsimp only; split
  · rfl
  · split <;> simp

@[simp] lemma recordEvent_concurrentTasks (s : BreakerState) (now : Int) (svc act : String)
    (st : EvStatus) (tok : Int) (tid : Option String) :
    (recordEvent s now svc act st tok tid).concurrentTasks = s.concurrentTasks := by
  unfold recordEvent; dsimp only; split
  · rfl
  · split <;> simp

@[simp] lemma recordEvent_tasks (s : BreakerState) (now : Int) (svc act : String)
    (st : EvStatus) (tok : Int) (tid : Option String) :
    (recordEvent s now svc act st tok tid).tasks = s.tasks := by
  unfold recordEvent; dsimp only; split
  · rfl
  · split <;> simp

@[simp] lemma recordEvent_config (s : BreakerState) (now : Int) (svc act : String)
    (st : EvStatus) (tok : Int) (tid : Option String) :
    (recordEvent s now svc act st tok tid).config = s.config := by
  unfold recordEvent; dsimp only; split
  · rfl
  · split <;> simp

@[simp] lemma recordEvent_dailyTokenReset (s : BreakerState) (now : Int) (svc act : String)
    (st : EvStatus) (tok : Int) (tid : Option String) :
    (recordEvent s now svc act st tok tid).dailyTokenReset = s.dailyTokenReset := by
  unfold recordEvent; dsimp only; split
  · rfl
  · split <;> simp

lemma recordEvent_circuit_allowed (s : BreakerState) (now : Int) (svc act : String)
    (tok : Int) (tid : Option String) :
    (recordEvent s now svc act .allowed tok tid).circuit = s.circuit := by
  unfold recordEvent; dsimp only; rfl

lemma lookupTask_append_single_self (l : List (String × TaskEntry)) (t : String)
    (v : TaskEntry) (h : lookupTask l t = none) :
    lookupTask (l ++ [(t, v)]) t = some v := by
  induction l with
  | nil => simp [lookupTask]
  | cons p rest ih =>
    by_cases hp : p.1 = t
    · simp [lookupTask, hp] at h
    · simp only [lookupTask, hp, if_neg hp, List.cons_append] at h ⊢
      exact ih h

lemma lookupTask_updTask (l : List (String × TaskEntry)) (t : String)
    (f : TaskEntry → TaskEntry) :
    lookupTask (updTask l t f) t = (lookupTask l t).map f := by
  induction l with
  | nil => rfl
  | cons p rest ih =>
    obtain ⟨k, v⟩ := p
    simp only [updTask, List.map_cons]
    by_cases hk : k = t
    · subst hk
      rw [if_pos rfl]
      simp [lookupTask]
    · rw [if_neg hk]
      simp only [lookupTask, if_neg hk]
      simpa [updTask] using ih

lemma eraseTask_of_lookup_none (l : List (String × TaskEntry)) (t : String)
    (h : lookupTask l t = none) : eraseTask l t = l := by
  induction l with
  | nil => rfl
  | cons p rest ih =>
    obtain ⟨k, v⟩ := p
    by_cases hk : k = t
    · subst hk; simp [lookupTask] at h
    · simp only [lookupTask, if_neg hk] at h
      have ih' := ih h
      simp only [eraseTask] at ih' ⊢
      simp [List.filter_cons, hk, ih']

lemma eraseTask_append_single (l : List (String × TaskEntry)) (t : String)
    (v : TaskEntry) : eraseTask (l ++ [(t, v)]) t = eraseTask l t := by
  simp [eraseTask, List.filter_append]

@[simp] lemma addDailyEstimate_tasks (s : BreakerState) (est : Int) :
    (addDailyEstimate s est).tasks = s.tasks := by
  unfold addDailyEstimate; split <;> rfl

@[simp] lemma addDailyEstimate_concurrentTasks (s : BreakerState) (est : Int) :
    (addDailyEstimate s est).concurrentTasks = s.concurrentTasks := by
  unfold addDailyEstimate; split <;> rfl

@[simp] lemma addDailyEstimate_config (s : BreakerState) (est : Int) :
    (addDailyEstimate s est).config = s.config := by
  unfold addDailyEstimate; split <;> rfl

@[simp] lemma addDailyEstimate_dailyTokenReset (s : BreakerState) (est : Int) :
    (addDailyEstimate s est).dailyTokenReset = s.dailyTokenReset := by
  unfold addDailyEstimate; split <;> rfl

@[simp] lemma addDailyEstimate_circuit (s : BreakerState) (est : Int) :
    (addDailyEstimate s est).circuit = s.circuit := by
  unfold addDailyEstimate; split <;> rfl

lemma addDailyEstimate_dailyTokens (s : BreakerState) (est : Int) (h : 0 ≤ est) :
    (addDailyEstimate s est).dailyTokens = s.dailyTokens + est := by
  unfold addDailyEstimate
  split
  · rfl
  · rename_i hp
    have h0 : est = 0 := le_antisymm (not_lt.mp hp) h
    simp [h0]

lemma reserve_dailyTokens (s : BreakerState) (now est : Int) (tid : Option String)
    (h : 0 ≤ est) :
    (reserve s now est tid).dailyTokens = s.dailyTokens + est := by
  unfold reserve
  dsimp only
  cases tid with
  | none => exact addDailyEstimate_dailyTokens s est h
  | some t =>
    simp only [addDailyEstimate_tasks]
    cases hl : lookupTask s.tasks t <;>
      simp [hl, addDailyEstimate_dailyTokens s est h]

lemma reserve_tasks_none (s : BreakerState) (now est : Int) :
    (reserve s now est none).tasks = s.tasks := by
  unfold reserve; simp

lemma reserve_concurrentTasks_none (s : BreakerState) (now est : Int) :
    (reserve s now est none).concurrentTasks = s.concurrentTasks := by
  unfold reserve; simp

lemma reserve_new (s : BreakerState) (now est : Int) (t : String)
    (h : lookupTask s.tasks t = none) :
    (reserve s now est (some t)).concurrentTasks = s.concurrentTasks + 1 ∧
    (reserve s now est (some t)).tasks = addTask s.tasks t ⟨est, 0, "running", now⟩ := by
  unfold reserve
  dsimp only
  simp [h]

lemma reserve_old (s : BreakerState) (now est : Int) (t : String) (e : TaskEntry)
    (h : lookupTask s.tasks t = some e) :
    (reserve s now est (some t)).concurrentTasks = s.concurrentTasks ∧
    (reserve s now est (some t)).tasks =
      updTask s.tasks t (fun e => { e with tokens := e.tokens + est }) := by
  unfold reserve
  dsimp only
  simp [h]

@[simp] lemma reserve_config (s : BreakerState) (now est : Int) (tid : Option String) :
    (reserve s now est tid).config = s.config := by
  unfold reserve
  dsimp only
  cases tid with
  | none => simp
  | some t =>
    simp only [addDailyEstimate_tasks]
    cases hl : lookupTask s.tasks t <;> simp [hl]

@[simp] lemma reserve_dailyTokenReset (s : BreakerState) (now est : Int) (tid : Option String) :
    (reserve s now est tid).dailyTokenReset = s.dailyTokenReset := by
  unfold reserve
  dsimp only
  cases tid with
  | none => simp
  | some t =>
    simp only [addDailyEstimate_tasks]
    cases hl : lookupTask s.tasks t <;> simp [hl]

@[simp] lemma reserve_circuit (s : BreakerState) (now est : Int) (tid : Option String) :
    (reserve s now est tid).circuit = s.circuit := by
  unfold reserve
  dsimp only
  cases tid with
  | none => simp
  | some t =>
    simp only [addDailyEstimate_tasks]
    cases hl : lookupTask s.tasks t <;> simp [hl]

/-- Master characterization of `check`: its result and post-state, indexed
by the spec-side decision `specCheckReason`. -/
lemma check_eq (s0 : BreakerState) (now : Int) (svc act : String) (est : Int)
    (tid : Option String) :
    check s0 now svc act est tid =
      match specCheckReason s0 now est tid with
      | some r =>
        (⟨false, some r, ⟨s0.dailyTokens, s0.concurrentTasks⟩⟩,
          recordEvent (if r = .circuitOpen then s0 else halfOpenStep s0)
            now svc act r est tid)
      | none =>
        (⟨true, none,
            ⟨(reserve (halfOpenStep s0) now est tid).dailyTokens,
             (reserve (halfOpenStep s0) now est tid).concurrentTasks⟩⟩,
          recordEvent (reserve (halfOpenStep s0) now est tid) now svc act .allowed est tid) := by
  unfold check specCheckReason
  dsimp only
  by_cases h1 : s0.circuit.isOpen ∧ now < s0.circuit.nextAllowedTime.getD 0
  · simp [h1]
  · simp only [if_neg h1]
    by_cases h2 : s0.dailyTokens + est > s0.config.maxDailyTokens
    · simp [h2]
    · simp only [halfOpenStep_dailyTokens, halfOpenStep_config, if_neg h2]
      by_cases h3 : s0.concurrentTasks ≥ s0.config.maxConcurrentTasks
      · simp [h3]
      · simp only [halfOpenStep_concurrentTasks, if_neg h3]
        cases tid with
        | none => simp [taskLimitHit]
        | some t =>
          cases hl : lookupTask s0.tasks t with
          | none => simp [taskLimitHit, hl]
          | some e =>
            by_cases h4 : e.tokens + est > s0.config.maxTaskTokens
            · simp [taskLimitHit, hl, h4]
            · simp [taskLimitHit, hl, h4]

lemma recordEvent_events (s : BreakerState) (now : Int) (svc act : String)
    (st : EvStatus) (tok : Int) (tid : Option String) :
    (recordEvent s now svc act st tok tid).events =
      ((⟨now, svc, act, st, tok, tid⟩ : BreakerEvent) :: s.events).take 1000 := by
  unfold recordEvent
  dsimp only
  split
  · rfl
  · split <;> simp

lemma lookupTask_eraseTask (l : List (String × TaskEntry)) (t : String) :
    lookupTask (eraseTask l t) t = none := by
  induction l with
  | nil => rfl
  | cons p rest ih =>
    obtain ⟨k, v⟩ := p
    by_cases hk : k = t
    · simpa [eraseTask, List.filter_cons, hk] using ih
    · simpa [eraseTask, List.filter_cons, hk, lookupTask, ih] using ih

@[simp] lemma expireTask_dailyTokens (now : Int) (acc : BreakerState) (kv : String × TaskEntry) :
    (expireTask now acc kv).dailyTokens = acc.dailyTokens := by
  unfold expireTask; split <;> rfl

@[simp] lemma expireTask_config (now : Int) (acc : BreakerState) (kv : String × TaskEntry) :
    (expireTask now acc kv).config = acc.config := by
  unfold expireTask; split <;> rfl

lemma expireTask_conc_le_cap (now : Int) (acc : BreakerState) (kv : String × TaskEntry)
    (h : acc.concurrentTasks ≤ acc.config.maxConcurrentTasks)
    (hcap : 0 ≤ acc.config.maxConcurrentTasks) :
    (expireTask now acc kv).concurrentTasks ≤
      (expireTask now acc kv).config.maxConcurrentTasks := by
  unfold expireTask
  split
  · dsimp only
    exact max_le hcap (by omega)
  · exact h

lemma foldl_expireTask_dailyTokens (now : Int) (l : List (String × TaskEntry)) :
    ∀ acc : BreakerState, (l.foldl (expireTask now) acc).dailyTokens = acc.dailyTokens := by
  induction l with
  | nil => intro acc; rfl
  | cons kv rest ih =>
    intro acc
    rw [List.foldl_cons, ih, expireTask_dailyTokens]

lemma foldl_expireTask_config (now : Int) (l : List (String × TaskEntry)) :
    ∀ acc : BreakerState, (l.foldl (expireTask now) acc).config = acc.config := by
  induction l with
  | nil => intro acc; rfl
  | cons kv rest ih =>
    intro acc
    rw [List.foldl_cons, ih, expireTask_config]

lemma foldl_expireTask_conc_le_cap (now : Int) (l : List (String × TaskEntry)) :
    ∀ acc : BreakerState, acc.concurrentTasks ≤ acc.config.maxConcurrentTasks →
      0 ≤ acc.config.maxConcurrentTasks →
      (l.foldl (expireTask now) acc).concurrentTasks ≤
        (l.foldl (expireTask now) acc).config.maxConcurrentTasks := by
  induction l with
  | nil => intro acc h _; exact h
  | cons kv rest ih =>
    intro acc h hcap
    rw [List.foldl_cons]
    exact ih _ (expireTask_conc_le_cap now acc kv h hcap)
      (by rw [expireTask_config]; exact hcap)

lemma halfOpenStep_circuit_of_open (s : BreakerState) (h : s.circuit.isOpen = true) :
    (halfOpenStep s).circuit =
      { s.circuit with isOpen := false, halfOpenTestCount := 0 } := by
  unfold halfOpenStep
  rw [if_pos h]

/-- Effect of one allowed (Check, Release) pair starting from a state with
no in-flight task: the daily total grows by exactly the actual usage, and
the task map and concurrency counter return to empty/zero. -/
lemma pairStep_clean (now : Int) (tid : String) (s : BreakerState) (r a : Int)
    (hd : 0 ≤ s.dailyTokens) (hc : s.concurrentTasks = 0) (ht : s.tasks = [])
    (hr : 0 ≤ r) (ha : 0 ≤ a)
    (hallow : (check s now "llm" "llm_call" r (some tid)).1.allowed = true) :
    (pairStep now tid s r a).dailyTokens = s.dailyTokens + a ∧
    (pairStep now tid s r a).tasks = [] ∧
    (pairStep now tid s r a).concurrentTasks = 0 := by
  have hc2 := check_eq s now "llm" "llm_call" r (some tid)
  cases hspec : specCheckReason s now r (some tid) with
  | some rr =>
    rw [hspec] at hc2
    rw [hc2] at hallow
    simp at hallow
  | none =>
    rw [hspec] at hc2
    have hlook : lookupTask (halfOpenStep s).tasks tid = none := by
      rw [halfOpenStep_tasks, ht]; rfl
    have hres := reserve_new (halfOpenStep s) now r tid hlook
    have h2tasks : (check s now "llm" "llm_call" r (some tid)).2.tasks =
        [(tid, ⟨r, 0, "running", now⟩)] := by
      rw [hc2]
      dsimp only
      rw [recordEvent_tasks, hres.2, halfOpenStep_tasks, ht]
      rfl
    have h2conc : (check s now "llm" "llm_call" r (some tid)).2.concurrentTasks = 1 := by
      rw [hc2]
      dsimp only
      rw [recordEvent_concurrentTasks, hres.1, halfOpenStep_concurrentTasks, hc]
      norm_num
    have h2daily : (check s now "llm" "llm_call" r (some tid)).2.dailyTokens =
        s.dailyTokens + r := by
      rw [hc2]
      dsimp only
      rw [recordEvent_dailyTokens, reserve_dailyTokens _ _ _ _ hr, halfOpenStep_dailyTokens]
    have hlook2 : lookupTask (check s now "llm" "llm_call" r (some tid)).2.tasks tid =
        some ⟨r, 0, "running", now⟩ := by
      rw [h2tasks]; simp [lookupTask]
    unfold pairStep
    unfold release
    dsimp only
    rw [hlook2]
    dsimp only
    refine ⟨?_, ?_, ?_⟩
    · rw [h2daily]
      have harith : s.dailyTokens + r + (a - r) = s.dailyTokens + a := by ring
      rw [harith]
      exact max_eq_right (by omega)
    · rw [h2tasks]
      simp [eraseTask]
    · rw [h2conc]
      norm_num

end Helpers

section Claims

open CircuitBreakerManager

/-- Claim C1: `check` applies the admission tests in the fixed order
circuit-open, daily-limit, concurrency-limit, task-limit; the result
carries the reason of the first failing test (`none` when every test
passes, in which case the result is allowed); and on allow the state is
pre-reserved — the estimate is added to the daily total, and for a task
id the task total is increased (a new task is registered with the
estimate and the concurrency counter incremented, an existing one
accumulates). -/
theorem check_admission_refines_spec (s : BreakerState) (now : Int) (svc act : String)
    (est : Int) (tid : Option String) (hest : 0 ≤ est) :
    ((check s now svc act est tid).1.reason = specCheckReason s now est tid) ∧
    ((check s now svc act est tid).1.allowed = true ↔
       specCheckReason s now est tid = none) ∧
    ((check s now svc act est tid).1.allowed = true →
       (check s now svc act est tid).2.dailyTokens = s.dailyTokens + est) ∧
    (tid = none →
       (check s now svc act est tid).2.tasks = s.tasks ∧
       (check s now svc act est tid).2.concurrentTasks = s.concurrentTasks) ∧
    (∀ t, tid = some t → (check s now svc act est tid).1.allowed = true →
       ((lookupTask s.tasks t = none →
           (check s now svc act est tid).2.concurrentTasks = s.concurrentTasks + 1 ∧
           lookupTask (check s now svc act est tid).2.tasks t =
             some ⟨est, 0, "running", now⟩) ∧
        (∀ e, lookupTask s.tasks t = some e →
           (check s now svc act est tid).2.concurrentTasks = s.concurrentTasks ∧
           lookupTask (check s now svc act est tid).2.tasks t =
             some { e with tokens := e.tokens + est }))) := by
  have hc := check_eq s now svc act est tid
  cases hspec : specCheckReason s now est tid with
  | some r =>
    rw [hspec] at hc
    refine ⟨?_, ?_, ?_, ?_, ?_⟩
    · simp [hc]
    · simp [hc]
    · simp [hc]
    · intro h
      subst h
      rw [hc]
      dsimp only
      constructor <;> (split <;> simp)
    · intro t ht hall
      rw [hc] at hall
      simp at hall
  | none =>
    rw [hspec] at hc
    refine ⟨?_, ?_, ?_, ?_, ?_⟩
    · simp [hc]
    · simp [hc]
    · intro _
      rw [hc]
      dsimp only
      rw [recordEvent_dailyTokens, reserve_dailyTokens _ _ _ _ hest, halfOpenStep_dailyTokens]
    · intro h
      subst h
      rw [hc]
      dsimp only
      constructor
      · rw [recordEvent_tasks, reserve_tasks_none, halfOpenStep_tasks]
      · rw [recordEvent_concurrentTasks, reserve_concurrentTasks_none,
          halfOpenStep_concurrentTasks]
    · intro t ht _
      subst ht
      rw [hc]
      dsimp only
      constructor
      · intro hnone
        have h1 := reserve_new (halfOpenStep s) now est t (by rw [halfOpenStep_tasks]; exact hnone)
        constructor
        · rw [recordEvent_concurrentTasks, h1.1, halfOpenStep_concurrentTasks]
        · rw [recordEvent_tasks, h1.2, halfOpenStep_tasks]
          exact lookupTask_append_single_self _ _ _ hnone
      · intro e he
        have h1 := reserve_old (halfOpenStep s) now est t e (by rw [halfOpenStep_tasks]; exact he)
        constructor
        · rw [recordEvent_concurrentTasks, h1.1, halfOpenStep_concurrentTasks]
        · rw [recordEvent_tasks, h1.2, halfOpenStep_tasks, lookupTask_updTask, he]
          rfl

/-- Concrete instantiation of `check_admission_refines_spec` at the fresh
default-configuration state. -/
theorem check_admission_refines_spec_witness :
    (0 : Int) ≤ 100 ∧
    (((check (initBreaker DEFAULT_CONFIG 0) 0 "llm" "analyze_intent" 100 (some "t1")).1.reason =
        specCheckReason (initBreaker DEFAULT_CONFIG 0) 0 100 (some "t1")) ∧
     ((check (initBreaker DEFAULT_CONFIG 0) 0 "llm" "analyze_intent" 100 (some "t1")).1.allowed = true ↔
        specCheckReason (initBreaker DEFAULT_CONFIG 0) 0 100 (some "t1") = none) ∧
     ((check (initBreaker DEFAULT_CONFIG 0) 0 "llm" "analyze_intent" 100 (some "t1")).1.allowed = true →
        (check (initBreaker DEFAULT_CONFIG 0) 0 "llm" "analyze_intent" 100 (some "t1")).2.dailyTokens =
          (initBreaker DEFAULT_CONFIG 0).dailyTokens + 100) ∧
     ((some "t1" : Option String) = none →
        (check (initBreaker DEFAULT_CONFIG 0) 0 "llm" "analyze_intent" 100 (some "t1")).2.tasks =
          (initBreaker DEFAULT_CONFIG 0).tasks ∧
        (check (initBreaker DEFAULT_CONFIG 0) 0 "llm" "analyze_intent" 100 (some "t1")).2.concurrentTasks =
          (initBreaker DEFAULT_CONFIG 0).concurrentTasks) ∧
     (∀ t, (some "t1" : Option String) = some t →
        (check (initBreaker DEFAULT_CONFIG 0) 0 "llm" "analyze_intent" 100 (some "t1")).1.allowed = true →
        ((lookupTask (initBreaker DEFAULT_CONFIG 0).tasks t = none →
            (check (initBreaker DEFAULT_CONFIG 0) 0 "llm" "analyze_intent" 100 (some "t1")).2.concurrentTasks =
              (initBreaker DEFAULT_CONFIG 0).concurrentTasks + 1 ∧
            lookupTask (check (initBreaker DEFAULT_CONFIG 0) 0 "llm" "analyze_intent" 100 (some "t1")).2.tasks t =
              some ⟨100, 0, "running", 0⟩) ∧
         (∀ e, lookupTask (initBreaker DEFAULT_CONFIG 0).tasks t = some e →
            (check (initBreaker DEFAULT_CONFIG 0) 0 "llm" "analyze_intent" 100 (some "t1")).2.concurrentTasks =
              (initBreaker DEFAULT_CONFIG 0).concurrentTasks ∧
            lookupTask (check (initBreaker DEFAULT_CONFIG 0) 0 "llm" "analyze_intent" 100 (some "t1")).2.tasks t =
              some { e with tokens := e.tokens + 100 })))) :=
  ⟨by decide,
   check_admission_refines_spec (initBreaker DEFAULT_CONFIG 0) 0 "llm" "analyze_intent" 100
     (some "t1") (by decide)⟩

/-- Claim C2: for a sequence of (Check, Release) pairs on one task id in
which every Check is allowed, the final daily total equals the initial one
plus the sum of the actual token counts, and no task is left in flight;
and each individual `release` on a registered task adds
(actual − reserved) to the daily total clamped at 0, drops the task entry,
and decrements the concurrency counter with a clamp. -/
theorem release_reconciles_reservations (now : Int) (tid : String) :
    (∀ (l : List (Int × Int)) (s : BreakerState),
       0 ≤ s.dailyTokens → s.concurrentTasks = 0 → s.tasks = [] →
       (∀ p ∈ l, 0 ≤ p.1 ∧ 0 ≤ p.2) →
       pairsAllowed now tid s l = true →
       (runPairs now tid s l).dailyTokens = s.dailyTokens + (l.map Prod.snd).sum ∧
       (runPairs now tid s l).tasks = [] ∧
       (runPairs now tid s l).concurrentTasks = 0) ∧
    (∀ (s : BreakerState) (t : String) (a : Int) (e : TaskEntry),
       lookupTask s.tasks t = some e →
       (release s (some t) a).dailyTokens = max 0 (s.dailyTokens + (a - e.tokens)) ∧
       lookupTask (release s (some t) a).tasks t = none ∧
       (release s (some t) a).concurrentTasks = max 0 (s.concurrentTasks - 1)) := by
  constructor
  · intro l
    induction l with
    | nil =>
      intro s hd hc ht _ _
      exact ⟨by simp [runPairs], by simpa [runPairs] using ht, by simpa [runPairs] using hc⟩
    | cons p rest ih =>
      intro s hd hc ht hpos hallow
      obtain ⟨r, a⟩ := p
      have hpr := hpos (r, a) (by simp)
      simp only [pairsAllowed, Bool.and_eq_true] at hallow
      have hps := pairStep_clean now tid s r a hd hc ht hpr.1 hpr.2 hallow.1
      have hrec := ih (pairStep now tid s r a)
        (by rw [hps.1]; omega) hps.2.2 hps.2.1
        (fun q hq => hpos q (by simp [hq])) hallow.2
      refine ⟨?_, ?_, ?_⟩
      · show (runPairs now tid (pairStep now tid s r a) rest).dailyTokens = _
        rw [hrec.1, hps.1, List.map_cons, List.sum_cons]
        ring
      · exact hrec.2.1
      · exact hrec.2.2
  · intro s t a e he
    unfold release
    dsimp only
    rw [he]
    dsimp only
    exact ⟨rfl, lookupTask_eraseTask s.tasks t, rfl⟩

/-- Concrete instantiation of `release_reconciles_reservations`: two pairs
reserving 100 and 50 and reporting 80 and 70 leave the daily total at 150
with no task in flight; one release on a registered task reconciles it. -/
theorem release_reconciles_reservations_witness :
    ((∀ p ∈ [((100 : Int), (80 : Int)), (50, 70)], 0 ≤ p.1 ∧ 0 ≤ p.2) ∧
     pairsAllowed 0 "t1" (initBreaker DEFAULT_CONFIG 0) [(100, 80), (50, 70)] = true ∧
     ((runPairs 0 "t1" (initBreaker DEFAULT_CONFIG 0) [(100, 80), (50, 70)]).dailyTokens =
        (initBreaker DEFAULT_CONFIG 0).dailyTokens +
          ([((100 : Int), (80 : Int)), (50, 70)].map Prod.snd).sum ∧
      (runPairs 0 "t1" (initBreaker DEFAULT_CONFIG 0) [(100, 80), (50, 70)]).tasks = [] ∧
      (runPairs 0 "t1" (initBreaker DEFAULT_CONFIG 0) [(100, 80), (50, 70)]).concurrentTasks = 0)) ∧
    (lookupTask stateOneTaskTwoRetries.tasks "fb1" = some ⟨100, 2, "running", 0⟩ ∧
     ((release stateOneTaskTwoRetries (some "fb1") 42).dailyTokens =
        max 0 (stateOneTaskTwoRetries.dailyTokens + (42 - 100)) ∧
      lookupTask (release stateOneTaskTwoRetries (some "fb1") 42).tasks "fb1" = none ∧
      (release stateOneTaskTwoRetries (some "fb1") 42).concurrentTasks =
        max 0 (stateOneTaskTwoRetries.concurrentTasks - 1))) :=
  ⟨⟨by decide, by decide,
    (release_reconciles_reservations 0 "t1").1 [(100, 80), (50, 70)]
      (initBreaker DEFAULT_CONFIG 0) (by decide) (by decide) (by decide)
      (by decide) (by decide)⟩,
   ⟨by decide,
    (release_reconciles_reservations 0 "t1").2 stateOneTaskTwoRetries "fb1" 42
      ⟨100, 2, "running", 0⟩ (by decide)⟩⟩

/-- Claim C3 counterexample: with the circuit open, `nextAllowedTime = 100`
and the daily budget exhausted, a `check` arriving exactly at t = 100 is
NOT admitted (it is denied `daily-limit`), refuting "once open, a Check
arriving at now ≥ next-allowed-time is admitted in a half-open state". -/
theorem circuit_halfopen_not_admitted_counterexample :
    stateOpenExhausted.circuit.isOpen = true ∧
    stateOpenExhausted.circuit.nextAllowedTime.getD 0 ≤ 100 ∧
    (check stateOpenExhausted 100 "llm" "llm_call" 1 none).1.allowed = false ∧
    (check stateOpenExhausted 100 "llm" "llm_call" 1 none).1.reason =
      some EvStatus.dailyLimit := by
  decide

/-- Claim C3 (amended): (1) a non-allowed event whose recording brings the
60 s failure window to at least 5 leaves the circuit open (trip rule);
(2) when the circuit is open and now ≥ next-allowed-time, `check` closes
the circuit and re-applies the ordinary admission tests — when the call is
admitted the final circuit is closed with half-open test count 0 (it is
not unconditionally admitted, and there is no distinguished half-open
state); (3) `release` never modifies the circuit state (recovery closes
at Check time, not at Release); (4) re-opening happens only through
`openCircuit`, which sets next-allowed-time to now + halfOpenProbeInterval
rather than extending the previous deadline. -/
theorem circuit_transitions_amended :
    (∀ (s : BreakerState) (now : Int) (svc act : String) (st : EvStatus) (tok : Int)
        (tid : Option String), st ≠ EvStatus.allowed →
        5 ≤ recentFailureCount
              (((⟨now, svc, act, st, tok, tid⟩ : BreakerEvent) :: s.events).take 1000) now →
        (recordEvent s now svc act st tok tid).circuit.isOpen = true) ∧
    (∀ (s : BreakerState) (now : Int) (svc act : String) (est : Int) (tid : Option String),
        s.circuit.isOpen = true → s.circuit.nextAllowedTime.getD 0 ≤ now →
        (check s now svc act est tid).1.allowed = true →
        (check s now svc act est tid).2.circuit.isOpen = false ∧
        (check s now svc act est tid).2.circuit.halfOpenTestCount = 0) ∧
    (∀ (s : BreakerState) (tid : Option String) (a : Int),
        (release s tid a).circuit = s.circuit) ∧
    (∀ (s : BreakerState) (now : Int), s.circuit.isOpen = false →
        (openCircuit s now).circuit.isOpen = true ∧
        (openCircuit s now).circuit.nextAllowedTime =
          some (now + s.config.halfOpenTestIntervalMs)) := by
  refine ⟨?_, ?_, ?_, ?_⟩
  · intro s now svc act st tok tid hst hcount
    unfold recordEvent
    dsimp only
    rw [if_neg hst, if_pos hcount]
    exact openCircuit_isOpen _ _
  · intro s now svc act est tid hopen hle hall
    have hc := check_eq s now svc act est tid
    cases hspec : specCheckReason s now est tid with
    | some r =>
      rw [hspec] at hc
      rw [hc] at hall
      simp at hall
    | none =>
      rw [hspec] at hc
      rw [hc]
      dsimp only
      rw [recordEvent_circuit_allowed, reserve_circuit, halfOpenStep_circuit_of_open s hopen]
      exact ⟨rfl, rfl⟩
  · intro s tid a
    unfold release
    cases tid with
    | none => rfl
    | some t =>
      dsimp only
      cases hl : lookupTask s.tasks t <;> simp [hl]
  · intro s now h
    unfold openCircuit
    rw [if_neg (by simp [h])]
    exact ⟨rfl, rfl⟩

/-- Concrete instantiations of `circuit_transitions_amended`: the fifth
fresh failure trips the breaker; an open circuit visited at its deadline
with budget available admits the call with the circuit closed again;
`release` leaves the circuit of `stateOneTaskTwoRetries` untouched; and
`openCircuit` on a fresh state sets the 10-minute deadline. -/
theorem circuit_transitions_amended_witness :
    (EvStatus.dailyLimit ≠ EvStatus.allowed ∧
     5 ≤ recentFailureCount
           (((⟨0, "llm", "llm_call", EvStatus.dailyLimit, 0, none⟩ : BreakerEvent) ::
              stateFourFailures.events).take 1000) 0 ∧
     (recordEvent stateFourFailures 0 "llm" "llm_call" EvStatus.dailyLimit 0
        none).circuit.isOpen = true) ∧
    (stateOpenRecoverable.circuit.isOpen = true ∧
     stateOpenRecoverable.circuit.nextAllowedTime.getD 0 ≤ 100 ∧
     (check stateOpenRecoverable 100 "llm" "llm_call" 1 none).1.allowed = true ∧
     ((check stateOpenRecoverable 100 "llm" "llm_call" 1 none).2.circuit.isOpen = false ∧
      (check stateOpenRecoverable 100 "llm" "llm_call" 1 none).2.circuit.halfOpenTestCount = 0)) ∧
    ((release stateOneTaskTwoRetries (some "fb1") 42).circuit =
       stateOneTaskTwoRetries.circuit) ∧
    ((initBreaker DEFAULT_CONFIG 0).circuit.isOpen = false ∧
     ((openCircuit (initBreaker DEFAULT_CONFIG 0) 7).circuit.isOpen = true ∧
      (openCircuit (initBreaker DEFAULT_CONFIG 0) 7).circuit.nextAllowedTime =
        some (7 + (initBreaker DEFAULT_CONFIG 0).config.halfOpenTestIntervalMs))) :=
  ⟨⟨by decide, by decide,
    circuit_transitions_amended.1 stateFourFailures 0 "llm" "llm_call" EvStatus.dailyLimit 0
      none (by decide) (by decide)⟩,
   ⟨by decide, by decide, by decide,
    circuit_transitions_amended.2.1 stateOpenRecoverable 100 "llm" "llm_call" 1 none
      (by decide) (by decide) (by decide)⟩,
   circuit_transitions_amended.2.2.1 stateOneTaskTwoRetries (some "fb1") 42,
   ⟨by decide,
    circuit_transitions_amended.2.2.2 (initBreaker DEFAULT_CONFIG 0) 7 (by decide)⟩⟩

/-- Claim C4 counterexample, both schedules: when the failing continuation
runs inside the 1 s `done`-timer window the delivered trace contains BOTH
an `error` and a `complete` (two terminal events); when `agent.process`
settles after the timer has ended the response, NO terminal event is
delivered at all (the stream is `connected, stage, stage, done`).  Either
way "exactly one of `complete` or `error` is emitted and it precedes
`done`" is refuted. -/
theorem stream_terminal_pair_counterexample :
    ¬((streamTrace AgentOutcome.failure true).countP isTerminalEvent = 1) ∧
    (streamTrace AgentOutcome.failure true).countP isTerminalEvent = 2 ∧
    (streamTrace AgentOutcome.failure false).countP isTerminalEvent = 0 ∧
    streamTrace AgentOutcome.failure false =
      [StreamEvent.connected, StreamEvent.stage "analyzing",
       StreamEvent.stage "processing", StreamEvent.done] := by
  refine ⟨by decide, by decide, by decide, by decide⟩

/-- Claim C4 (amended): under either schedule of the race between the
`agent.process` continuation and the handler's independent 1-second `done`
timer, the delivered trace starts with `connected`, ends with `done`, and
holds at most one `complete` and at most one `error`.  When the promise
settles within the timer window, exactly one `complete` is delivered,
immediately before `done`, preceded by an `error` exactly on failure
paths (so one or two terminal events — not exactly one of the pair).
When the timer fires first it ends the response and removes the client,
so the continuation's events — including every terminal event — are
silently dropped and the stream carries no `complete`/`error` at all.
Emission through `sendToClient` to an unregistered or ended subscriber is
a silent no-op in every case. -/
theorem stream_trace_amended :
    (∀ (o : AgentOutcome) (settled : Bool),
       (streamTrace o settled).head? = some StreamEvent.connected ∧
       (streamTrace o settled).getLast? = some StreamEvent.done ∧
       (streamTrace o settled).countP isCompleteEvent ≤ 1 ∧
       (streamTrace o settled).countP (fun e => e == StreamEvent.error) ≤ 1 ∧
       (streamTrace o settled).countP isTerminalEvent ≤ 2 ∧
       (settled = true →
          (streamTrace o settled).countP isCompleteEvent = 1 ∧
          1 ≤ (streamTrace o settled).countP isTerminalEvent ∧
          ((streamTrace o settled).dropLast.getLast?).map isCompleteEvent = some true) ∧
       (settled = false →
          (streamTrace o settled).countP isTerminalEvent = 0)) ∧
    (∀ (clients : List (String × SseClient)) (cid : String) (sent : List StreamEvent)
        (ev : StreamEvent), clients.lookup cid = none →
        sendToClient clients cid sent ev = sent) ∧
    (∀ (clients : List (String × SseClient)) (cid : String) (sent : List StreamEvent)
        (ev : StreamEvent) (c : SseClient), clients.lookup cid = some c →
        c.writableEnded = true → sendToClient clients cid sent ev = sent) := by
  refine ⟨?_, ?_, ?_⟩
  · intro o settled
    cases settled with
    | false =>
      cases o with
      | needsHuman => decide
      | success m t p => cases m <;> cases t <;> cases p <;> decide
      | failure => decide
      | threw => decide
    | true =>
      cases o with
      | needsHuman => decide
      | success m t p => cases m <;> cases t <;> cases p <;> decide
      | failure => decide
      | threw => decide
  · intro clients cid sent ev h
    unfold sendToClient
    rw [h]
  · intro clients cid sent ev c h hend
    unfold sendToClient
    rw [h]
    dsimp only
    rw [if_pos hend]

/-- Concrete instantiations of `stream_trace_amended`: the happy-path trace
under both schedules, and sends to a missing or ended subscriber leaving
the written list unchanged. -/
theorem stream_trace_amended_witness :
    ((true = true →
        (streamTrace (AgentOutcome.success true true true) true).countP
          isCompleteEvent = 1 ∧
        1 ≤ (streamTrace (AgentOutcome.success true true true) true).countP
          isTerminalEvent ∧
        ((streamTrace (AgentOutcome.success true true true) true).dropLast.getLast?).map
          isCompleteEvent = some true) ∧
     (streamTrace (AgentOutcome.success true true true) true).head? =
        some StreamEvent.connected ∧
     (streamTrace (AgentOutcome.success true true true) true).getLast? =
        some StreamEvent.done) ∧
    ((false = false →
        (streamTrace (AgentOutcome.success true true true) false).countP
          isTerminalEvent = 0) ∧
     (streamTrace (AgentOutcome.success true true true) false).getLast? =
        some StreamEvent.done) ∧
    (([] : List (String × SseClient)).lookup "c1" = none ∧
     sendToClient [] "c1" [StreamEvent.connected] StreamEvent.intent =
       [StreamEvent.connected]) ∧
    (([("c1", (⟨true⟩ : SseClient))].lookup "c1") = some ⟨true⟩ ∧
     sendToClient [("c1", ⟨true⟩)] "c1" [StreamEvent.connected] StreamEvent.intent =
       [StreamEvent.connected]) :=
  ⟨⟨(stream_trace_amended.1 (AgentOutcome.success true true true) true).2.2.2.2.2.1,
    (stream_trace_amended.1 (AgentOutcome.success true true true) true).1,
    (stream_trace_amended.1 (AgentOutcome.success true true true) true).2.1⟩,
   ⟨(stream_trace_amended.1 (AgentOutcome.success true true true) false).2.2.2.2.2.2,
    (stream_trace_amended.1 (AgentOutcome.success true true true) false).2.1⟩,
   ⟨by decide,
    stream_trace_amended.2.1 [] "c1" [StreamEvent.connected] StreamEvent.intent (by decide)⟩,
   ⟨by decide,
    stream_trace_amended.2.2 [("c1", ⟨true⟩)] "c1" [StreamEvent.connected]
      StreamEvent.intent ⟨true⟩ (by decide) (by decide)⟩⟩

/-- Claim C5 counterexample: in the forced-test-failure scenario (S3) with
a retryable failure, `Agent.process` runs the Planner exactly once — not 4
times — because the Tester-failure back-edge is not wired: the call merely
returns `canRetry = true`. -/
theorem planner_backedge_counterexample :
    (agentProcess envTesterFails).1.canRetry = true ∧
    (agentProcess envTesterFails).2 = 1 ∧
    ¬((agentProcess envTesterFails).2 = 4) := by
  decide

/-- Claim C5 (amended): the Planner (`solutionGenerator.generate`) executes
at most once per `Agent.process` invocation — so trivially at most
1 + maxRetries times — and it executes exactly once precisely when the
analysis succeeds and is auto-improvable; there is no back-edge re-running
it inside `process`. -/
theorem planner_executes_at_most_once (env : StageOutcomes) (maxRetries : Nat) :
    (agentProcess env).2 ≤ 1 ∧
    (agentProcess env).2 ≤ 1 + maxRetries ∧
    ((agentProcess env).2 = 1 ↔
       env.analyzeSuccess = true ∧ env.canAutoImprove = true) := by
  have h1 : (agentProcess env).2 ≤ 1 ∧
      ((agentProcess env).2 = 1 ↔
        env.analyzeSuccess = true ∧ env.canAutoImprove = true) := by
    obtain ⟨a, b, c, d, e, f, g⟩ := env
    cases a <;> cases b <;> cases c <;> cases d <;> cases e <;> cases f <;> cases g <;> decide
  exact ⟨h1.1, le_trans h1.1 (by omega), h1.2⟩

/-- Concrete instantiation of `planner_executes_at_most_once` at the S3
environment with `maxRetries = 3`. -/
theorem planner_executes_at_most_once_witness :
    (agentProcess envTesterFails).2 ≤ 1 ∧
    (agentProcess envTesterFails).2 ≤ 1 + 3 ∧
    ((agentProcess envTesterFails).2 = 1 ↔
       envTesterFails.analyzeSuccess = true ∧ envTesterFails.canAutoImprove = true) :=
  planner_executes_at_most_once envTesterFails 3

/-- Claim C6 counterexample: with `maxRetries = 3` and a task already at 2
retries, `incrementRetry` returns false although the new count (3) does
not exceed `maxRetries` — the source tests `>=`, not `>`. -/
theorem incrementRetry_boundary_counterexample :
    (incrementRetry stateOneTaskTwoRetries 5 (some "fb1")).1 = false ∧
    ¬(2 + 1 > stateOneTaskTwoRetries.config.maxRetries) := by
  decide

/-- Claim C6 (amended): for a registered task, `incrementRetry` returns
false iff the retry count after incrementing reaches OR exceeds
`maxRetries` (the source compares with `>=`), and on that false return the
newest breaker event is a max-retries event; otherwise it returns true. -/
theorem incrementRetry_amended (s : BreakerState) (now : Int) (t : String)
    (task : TaskEntry) (h : lookupTask s.tasks t = some task) :
    ((incrementRetry s now (some t)).1 = false ↔
       s.config.maxRetries ≤ task.retries + 1) ∧
    (s.config.maxRetries ≤ task.retries + 1 →
       ((incrementRetry s now (some t)).2.events.head?.map BreakerEvent.status) =
         some EvStatus.maxRetriesExceeded) := by
  unfold incrementRetry
  dsimp only
  rw [h]
  dsimp only
  by_cases hge : task.retries + 1 ≥ s.config.maxRetries
  · rw [if_pos hge]
    refine ⟨by simpa using hge, ?_⟩
    intro _
    dsimp only
    rw [recordEvent_events]
    rw [show (1000 : Nat) = 999 + 1 from rfl, List.take_succ_cons]
    rfl
  · rw [if_neg hge]
    refine ⟨by simpa using hge, ?_⟩
    intro hcon
    exact absurd hcon hge

/-- Concrete instantiation of `incrementRetry_amended` at the state with a
task two retries in under the default `maxRetries = 3`. -/
theorem incrementRetry_amended_witness :
    lookupTask stateOneTaskTwoRetries.tasks "fb1" = some ⟨100, 2, "running", 0⟩ ∧
    (((incrementRetry stateOneTaskTwoRetries 5 (some "fb1")).1 = false ↔
        stateOneTaskTwoRetries.config.maxRetries ≤ 2 + 1) ∧
     (stateOneTaskTwoRetries.config.maxRetries ≤ 2 + 1 →
        ((incrementRetry stateOneTaskTwoRetries 5 (some "fb1")).2.events.head?.map
           BreakerEvent.status) = some EvStatus.maxRetriesExceeded)) :=
  ⟨by decide,
   incrementRetry_amended stateOneTaskTwoRetries 5 "fb1" ⟨100, 2, "running", 0⟩ (by decide)⟩

/-- Claim C7 counterexample: one passing test out of one run makes the
Tester report `passed = true` although the spec gate's conjunction fails
(`testsRun = 1 < 3 = minCases`): the source sets `passed` from the
pass-rate conjunct alone. -/
theorem quality_gate_conjunction_counterexample :
    testerPassed 1 1 none = true ∧ specQualityGate 1 1 none 3 7 = false := by
  constructor
  · unfold testerPassed qualityGateOf
    dsimp only
    rw [beq_iff_eq]
    norm_num
  · decide

/-- Claim C7 (amended): the Tester's `passed` verdict equals the pass-rate
conjunct alone — true iff `testsPassed == testsRun` with `testsRun ≠ 0`;
the minimum-case-count and LLM-score conjuncts are computed into the
`qualityGate` record but never consulted for the verdict. -/
theorem tester_verdict_pass_rate_only :
    (∀ (r p : Nat) (e : Option Int),
       testerPassed r p e = true ↔ (p = r ∧ r ≠ 0)) ∧
    (∀ (r p : Nat) (e e' : Option Int), testerPassed r p e = testerPassed r p e') := by
  constructor
  · intro r p e
    unfold testerPassed qualityGateOf
    dsimp only
    rw [beq_iff_eq]
    constructor
    · intro h
      rcases Nat.eq_zero_or_pos r with hr | hr
      · subst hr
        norm_num at h
      · have hr0 : (r : ℚ) ≠ 0 := by positivity
        rw [div_eq_one_iff_eq hr0] at h
        exact ⟨Nat.cast_injective h, by omega⟩
    · rintro ⟨rfl, hr⟩
      have hr0 : (p : ℚ) ≠ 0 := Nat.cast_ne_zero.mpr hr
      rw [div_self hr0]
  · intro r p e e'
    rfl

/-- Concrete instantiation of `tester_verdict_pass_rate_only`: a 3/3 run
passes regardless of the missing LLM assessment. -/
theorem tester_verdict_pass_rate_only_witness :
    (testerPassed 3 3 none = true ↔ ((3 : Nat) = 3 ∧ (3 : Nat) ≠ 0)) ∧
    testerPassed 3 3 none = testerPassed 3 3 (some 0) :=
  ⟨tester_verdict_pass_rate_only.1 3 3 none,
   tester_verdict_pass_rate_only.2 3 3 none (some 0)⟩

/-- Claim C8: both submission handlers reject a missing, empty or
whitespace-only `content` with HTTP 400 and create no feedback row, and an
accepted submission stores the content clamped to at most 280 characters. -/
theorem ingress_validation (c : String) (store : List String) :
    (handleProcess none store = (IngressResponse.badRequest, store)) ∧
    ((∀ ch ∈ c.data, ch.isWhitespace) →
       handleProcess (some c) store = (IngressResponse.badRequest, store)) ∧
    (jsTrim c ≠ "" →
       handleProcess (some c) store =
         (IngressResponse.ok (clamp280 c), clamp280 c :: store) ∧
       (clamp280 c).length ≤ 280) := by
  refine ⟨rfl, ?_, ?_⟩
  · intro h
    have htrim : jsTrim c = "" := by
      unfold jsTrim
      have hd : c.data.dropWhile Char.isWhitespace = [] :=
        List.dropWhile_eq_nil_iff.mpr h
      rw [hd]
      rfl
    unfold handleProcess
    dsimp only
    rw [if_pos htrim]
  · intro h
    unfold handleProcess
    dsimp only
    rw [if_neg h]
    refine ⟨rfl, ?_⟩
    show (c.data.take 280).length ≤ 280
    exact List.length_take_le 280 c.data

/-- Concrete instantiations of `ingress_validation`: a three-space content
is rejected without touching the store, and `"hello"` is accepted and
stored clamped. -/
theorem ingress_validation_witness :
    ((∀ ch ∈ ("   " : String).data, ch.isWhitespace) ∧
     handleProcess (some "   ") [] = (IngressResponse.badRequest, [])) ∧
    (jsTrim "hello" ≠ "" ∧
     (handleProcess (some "hello") [] =
        (IngressResponse.ok (clamp280 "hello"), [clamp280 "hello"]) ∧
      (clamp280 "hello").length ≤ 280)) :=
  ⟨⟨by decide, (ingress_validation "   " []).2.1 (by decide)⟩,
   ⟨by decide, (ingress_validation "hello" []).2.2 (by decide)⟩⟩

/-- Claim C9: starting from a state with non-negative daily usage and the
concurrency counter within its (non-negative) cap, every breaker
operation — `check` with a non-negative estimate, `release`,
`incrementRetry` and the housekeeping tick — yields a state that still
satisfies both invariants. -/
theorem breaker_ops_preserve_invariants (s : BreakerState) (now : Int) (svc act : String)
    (est : Int) (tid : Option String) (actual : Int)
    (hest : 0 ≤ est) (hcap : 0 ≤ s.config.maxConcurrentTasks) (hinv : BreakerInv s) :
    BreakerInv (check s now svc act est tid).2 ∧
    BreakerInv (release s tid actual) ∧
    BreakerInv (incrementRetry s now tid).2 ∧
    BreakerInv (cleanupTick s now) := by
  obtain ⟨hd, hc⟩ := hinv
  refine ⟨?_, ?_, ?_, ?_⟩
  · have hcheck := check_eq s now svc act est tid
    cases hspec : specCheckReason s now est tid with
    | some r =>
      rw [hspec] at hcheck
      rw [hcheck]
      dsimp only
      constructor
      · rw [recordEvent_dailyTokens]
        split <;> simp [hd]
      · rw [recordEvent_concurrentTasks, recordEvent_config]
        split <;> simp [hc]
    | none =>
      rw [hspec] at hcheck
      rw [hcheck]
      dsimp only
      constructor
      · rw [recordEvent_dailyTokens, reserve_dailyTokens _ _ _ _ hest,
          halfOpenStep_dailyTokens]
        omega
      · rw [recordEvent_concurrentTasks, recordEvent_config, reserve_config,
          halfOpenStep_config]
        cases tid with
        | none =>
          rw [reserve_concurrentTasks_none, halfOpenStep_concurrentTasks]
          exact hc
        | some t =>
          have hlt : s.concurrentTasks < s.config.maxConcurrentTasks := by
            unfold specCheckReason at hspec
            split_ifs at hspec with h1 h2 h3
            exact not_le.mp h3
          cases hl : lookupTask (halfOpenStep s).tasks t with
          | none =>
            rw [(reserve_new (halfOpenStep s) now est t hl).1, halfOpenStep_concurrentTasks]
            omega
          | some e =>
            rw [(reserve_old (halfOpenStep s) now est t e hl).1,
              halfOpenStep_concurrentTasks]
            exact hc
  · unfold release
    cases tid with
    | none => exact ⟨hd, hc⟩
    | some t =>
      dsimp only
      cases hl : lookupTask s.tasks t with
      | none => exact ⟨hd, hc⟩
      | some task =>
        dsimp only
        refine ⟨le_max_left _ _, ?_⟩
        show max 0 (s.concurrentTasks - 1) ≤ s.config.maxConcurrentTasks
        exact max_le hcap (by omega)
  · unfold incrementRetry
    cases tid with
    | none => exact ⟨hd, hc⟩
    | some t =>
      dsimp only
      cases hl : lookupTask s.tasks t with
      | none => exact ⟨hd, hc⟩
      | some task =>
        dsimp only
        split
        · constructor
          · rw [recordEvent_dailyTokens]
            exact hd
          · rw [recordEvent_concurrentTasks, recordEvent_config]
            exact hc
        · exact ⟨hd, hc⟩
  · unfold cleanupTick
    dsimp only
    constructor
    · rw [foldl_expireTask_dailyTokens]
      split
      · exact le_refl 0
      · exact hd
    · apply foldl_expireTask_conc_le_cap
      · split
        · exact hc
        · exact hc
      · split
        · exact hcap
        · exact hcap

/-- Concrete instantiation of `breaker_ops_preserve_invariants` at the
fresh default-configuration state. -/
theorem breaker_ops_preserve_invariants_witness :
    ((0 : Int) ≤ 10 ∧ 0 ≤ (initBreaker DEFAULT_CONFIG 0).config.maxConcurrentTasks ∧
     BreakerInv (initBreaker DEFAULT_CONFIG 0)) ∧
    (BreakerInv (check (initBreaker DEFAULT_CONFIG 0) 0 "llm" "llm_call" 10 (some "t1")).2 ∧
     BreakerInv (release (initBreaker DEFAULT_CONFIG 0) (some "t1") 5) ∧
     BreakerInv (incrementRetry (initBreaker DEFAULT_CONFIG 0) 0 (some "t1")).2 ∧
     BreakerInv (cleanupTick (initBreaker DEFAULT_CONFIG 0) 0)) :=
  ⟨⟨by decide, by decide, ⟨by decide, by decide⟩⟩,
   breaker_ops_preserve_invariants (initBreaker DEFAULT_CONFIG 0) 0 "llm" "llm_call" 10
     (some "t1") 5 (by decide) (by decide) ⟨by decide, by decide⟩⟩

/-- Claim C10: `release` is the identity on the whole breaker state when
the task id is null or unregistered; consequently an allowed `check` with
a null task id (the test service's LLM calls) permanently adds the
estimate to the daily total and registers nothing, so no later `release`
reconciles it, and only the daily-window reset of the housekeeping tick
clears the daily bucket. -/
theorem release_null_task_frame :
    (∀ (s : BreakerState) (a : Int), release s none a = s) ∧
    (∀ (s : BreakerState) (t : String) (a : Int), lookupTask s.tasks t = none →
       release s (some t) a = s) ∧
    (∀ (s : BreakerState) (now : Int) (svc act : String) (est : Int), 0 ≤ est →
       (check s now svc act est none).1.allowed = true →
       (check s now svc act est none).2.dailyTokens = s.dailyTokens + est ∧
       (check s now svc act est none).2.tasks = s.tasks ∧
       (check s now svc act est none).2.concurrentTasks = s.concurrentTasks) ∧
    (∀ (s : BreakerState) (now : Int), s.dailyTokenReset ≤ now →
       (cleanupTick s now).dailyTokens = 0) := by
  refine ⟨?_, ?_, ?_, ?_⟩
  · intro s a
    rfl
  · intro s t a h
    unfold release
    dsimp only
    rw [h]
  · intro s now svc act est hest hall
    have hcheck := check_eq s now svc act est none
    cases hspec : specCheckReason s now est none with
    | some r =>
      rw [hspec] at hcheck
      rw [hcheck] at hall
      simp at hall
    | none =>
      rw [hspec] at hcheck
      rw [hcheck]
      dsimp only
      refine ⟨?_, ?_, ?_⟩
      · rw [recordEvent_dailyTokens, reserve_dailyTokens _ _ _ _ hest,
          halfOpenStep_dailyTokens]
      · rw [recordEvent_tasks, reserve_tasks_none, halfOpenStep_tasks]
      · rw [recordEvent_concurrentTasks, reserve_concurrentTasks_none,
          halfOpenStep_concurrentTasks]
  · intro s now h
    unfold cleanupTick
    dsimp only
    rw [foldl_expireTask_dailyTokens]
    rw [if_pos h]

/-- Concrete instantiations of `release_null_task_frame`: releasing a null
or unknown task id changes nothing; a null-task `check` of 1500 estimated
tokens (the test-case-generation call) leaves the daily total increased by
1500 with no task registered; the tick resets the daily bucket. -/
theorem release_null_task_frame_witness :
    (release stateOneTaskTwoRetries none 9 = stateOneTaskTwoRetries) ∧
    (lookupTask (initBreaker DEFAULT_CONFIG 0).tasks "zz" = none ∧
     release (initBreaker DEFAULT_CONFIG 0) (some "zz") 3 = initBreaker DEFAULT_CONFIG 0) ∧
    ((check (initBreaker DEFAULT_CONFIG 0) 0 "test_service" "llm_call" 1500 none).1.allowed
        = true ∧
     ((check (initBreaker DEFAULT_CONFIG 0) 0 "test_service" "llm_call" 1500 none).2.dailyTokens =
        (initBreaker DEFAULT_CONFIG 0).dailyTokens + 1500 ∧
      (check (initBreaker DEFAULT_CONFIG 0) 0 "test_service" "llm_call" 1500 none).2.tasks =
        (initBreaker DEFAULT_CONFIG 0).tasks ∧
      (check (initBreaker DEFAULT_CONFIG 0) 0 "test_service" "llm_call" 1500 none).2.concurrentTasks =
        (initBreaker DEFAULT_CONFIG 0).concurrentTasks)) ∧
    (stateOneTaskTwoRetries.dailyTokenReset ≤ 86400000 ∧
     (cleanupTick stateOneTaskTwoRetries 86400000).dailyTokens = 0) :=
  ⟨release_null_task_frame.1 stateOneTaskTwoRetries 9,
   ⟨by decide, release_null_task_frame.2.1 (initBreaker DEFAULT_CONFIG 0) "zz" 3 (by decide)⟩,
   ⟨by decide,
    release_null_task_frame.2.2.1 (initBreaker DEFAULT_CONFIG 0) 0 "test_service" "llm_call"
      1500 (by decide) (by decide)⟩,
   ⟨by decide,
    release_null_task_frame.2.2.2 stateOneTaskTwoRetries 86400000 (by decide)⟩⟩

end Claims
